import Mathlib

/-!
Shallow embedding of the AI-Auto-Browser-Controler-POC repository.

Sources embedded:
  - src/runtime_state.py   : StepEvent, RuntimeMonitor (emit, get_current_status)
  - src/selenium_executor.py : SeleniumExecutor.execute_plan and _execute_step
  - src/orchestrator.py    : AISeleniumOrchestrator.execute_task and _print_summary
  - src/reporter.py        : ExecutionReporter.generate_summary and helpers

Modelling conventions:
  - Python wall-clock reads (datetime.now()) are an abstract counter threaded
    through the executor state; the reporter receives the formatted clock value
    as an explicit parameter, since each Python call reads a fresh clock.
  - The browser (selenium driver) is external: per-step outcomes of open, type
    and click actions come from an environment oracle; wait and screenshot
    never raise in the model.  The current URL observed after a successful
    action is supplied by the oracle.
  - Python exceptions are Except String; a caught exception is a match on
    Except.error that continues normally.
  - ISO timestamp parsing (datetime.fromisoformat) is an abstract parameter
    parseTime : String -> Option Rat of the reporter.
-/

/-- StepEvent dataclass from src/runtime_state.py. -/
structure StepEvent where
  step_index : Nat
  action : String
  status : String
  timestamp : String
  selector : Option String := none
  url : Option String := none
  value : Option String := none
  error : Option String := none
  screenshot_path : Option String := none
deriving Repr, DecidableEq

/-- RuntimeMonitor state from src/runtime_state.py: the append-only event log
and the current step index.  Listener callbacks are modelled separately by
emitFull below; emit is the state transition they share. -/
structure RuntimeMonitor where
  events : List StepEvent
  current_step : Option Nat
deriving Repr, DecidableEq

/-- The monitor as built by RuntimeMonitor.__init__. -/
def initMonitor : RuntimeMonitor := { events := [], current_step := none }

/-- State part of RuntimeMonitor.emit: append the event, set current_step. -/
def RuntimeMonitor.emit (m : RuntimeMonitor) (e : StepEvent) : RuntimeMonitor :=
  { events := m.events ++ [e], current_step := some e.step_index }

/-- The listener loop inside RuntimeMonitor.emit: each listener is called with
the event; a raising listener is caught (its message is printed) and the loop
continues with the next listener.  The returned list records the outcome of
each call in registration order. -/
def emitListenerLoop (e : StepEvent) :
    List (StepEvent → Except String Unit) → Except String (List (Except String Unit))
  | [] => Except.ok []
  | l :: rest =>
    let r := l e
    match emitListenerLoop e rest with
    | Except.ok rs => Except.ok (r :: rs)
    | Except.error err => Except.error err

/-- RuntimeMonitor.emit in full: append the event, update current_step, then
call every registered listener, catching listener exceptions.  The result is
an Except so that a propagated listener exception would surface as error. -/
def RuntimeMonitor.emitFull (m : RuntimeMonitor)
    (listeners : List (StepEvent → Except String Unit)) (e : StepEvent) :
    Except String (RuntimeMonitor × List (Except String Unit)) :=
  let m1 := m.emit e
  match emitListenerLoop e listeners with
  | Except.ok rs => Except.ok (m1, rs)
  | Except.error err => Except.error err

/-- Return value of RuntimeMonitor.get_current_status.  Python returns a dict;
keys absent in the empty-log branch are modelled as none. -/
structure StatusDict where
  status : String
  total_steps : Nat
  completed : Option Nat := none
  failed : Option Nat := none
  current_step : Option (Option Nat) := none
deriving Repr, DecidableEq

/-- max(e.step_index for e in events): maximum step index of a log. -/
def maxStepIndex (events : List StepEvent) : Nat :=
  (events.map (fun e => e.step_index)).foldl max 0

/-- Number of events with the given status string. -/
def countStatus (s : String) (events : List StepEvent) : Nat :=
  (events.filter (fun e => e.status == s)).length

/-- RuntimeMonitor.get_current_status from src/runtime_state.py. -/
def RuntimeMonitor.get_current_status (m : RuntimeMonitor) : StatusDict :=
  if m.events.isEmpty then
    { status := "not_started", total_steps := 0 }
  else
    { status := if m.current_step.isSome then "running" else "stopped"
      total_steps := maxStepIndex m.events + 1
      completed := some (countStatus "success" m.events)
      failed := some (countStatus "failed" m.events)
      current_step := some m.current_step }

/-- Monitor state reached from initMonitor by emitting the given events. -/
def replay (l : List StepEvent) : RuntimeMonitor :=
  l.foldl RuntimeMonitor.emit initMonitor

/- ===================== Reporter (src/reporter.py) ===================== -/

/-- One entry of the errors list built by ExecutionReporter.generate_summary. -/
structure ErrorEntry where
  step : Nat
  action : String
  error : Option String
  screenshot : Option String
deriving Repr, DecidableEq

/-- The summary dict built by ExecutionReporter.generate_summary. -/
structure Summary where
  execution_id : String
  timestamp : Option String
  duration : String
  total_steps : Nat
  successful_steps : Nat
  failed_steps : Nat
  success_rate : Rat
  urls_visited : List String
  errors : List ErrorEntry
  status : String
deriving Repr, DecidableEq

/-- ExecutionReporter.start_time: timestamp of the first event, if any. -/
def reporterStartTime (events : List StepEvent) : Option String :=
  events.head?.map (fun e => e.timestamp)

/-- ExecutionReporter.end_time: timestamp of the last event, if any. -/
def reporterEndTime (events : List StepEvent) : Option String :=
  events.getLast?.map (fun e => e.timestamp)

/-- Python round(x, 2) on the exact rational value. -/
def roundTo2 (q : Rat) : Rat := ((round (q * 100) : Int) : Rat) / 100

/-- Python f-string formatting with one decimal place, on the exact rational. -/
def fmt1 (q : Rat) : String :=
  let n : Int := round (q * 10)
  toString (n / 10) ++ "." ++ toString (n % 10)

/-- ExecutionReporter._calculate_duration.  parseTime stands for
datetime.fromisoformat; a parse failure is the except branch.  The leading
check mirrors Python truthiness: None or the empty string give N/A. -/
def _calculate_duration (parseTime : String → Option Rat)
    (startT endT : Option String) : String :=
  match startT, endT with
  | some s, some e =>
    if s = "" ∨ e = "" then "N/A"
    else
      match parseTime s, parseTime e with
      | some a, some b =>
        let seconds := b - a
        if seconds < 60 then fmt1 seconds ++ "s"
        else if seconds < 3600 then fmt1 (seconds / 60) ++ "m"
        else fmt1 (seconds / 3600) ++ "h"
      | _, _ => "N/A"
  | _, _ => "N/A"

/-- Strip the separators of an ISO timestamp, as in _generate_execution_id. -/
def stripTimestamp (s : String) : String :=
  ((s.replace ":" "").replace "-" "").replace "." ""

/-- ExecutionReporter._generate_execution_id.  now is the formatted wall-clock
value read when the log is empty (Python truthiness: None or ""). -/
def _generate_execution_id (now : String) (startT : Option String) : String :=
  match startT with
  | some s => if s = "" then "exec_" ++ now else "exec_" ++ (stripTimestamp s).take 15
  | none => "exec_" ++ now

/-- Filter selecting events whose url is truthy and whose status is success,
as in the urls_visited comprehension. -/
def urlVisitedFilter (e : StepEvent) : Bool :=
  (match e.url with
   | some u => u != ""
   | none => false) && e.status == "success"

/-- ExecutionReporter.generate_summary from src/reporter.py.  list(set(...))
is modelled by a deterministic deduplication; Python set iteration order is
fixed within one process, which is all the claims depend on. -/
def generate_summary (parseTime : String → Option Rat) (now : String)
    (events : List StepEvent) : Summary :=
  let total_steps := countStatus "started" events
  let successful_steps := countStatus "success" events
  let failed_steps := countStatus "failed" events
  let success_rate : Rat :=
    if 0 < total_steps then (successful_steps : Rat) / (total_steps : Rat) * 100 else 0
  { execution_id := _generate_execution_id now (reporterStartTime events)
    timestamp := reporterStartTime events
    duration := _calculate_duration parseTime (reporterStartTime events) (reporterEndTime events)
    total_steps := total_steps
    successful_steps := successful_steps
    failed_steps := failed_steps
    success_rate := roundTo2 success_rate
    urls_visited := ((events.filter urlVisitedFilter).map (fun e => e.url.getD "")).dedup
    errors := (events.filter (fun e => e.status == "failed")).map
      (fun e => { step := e.step_index, action := e.action
                  error := e.error, screenshot := e.screenshot_path })
    status := if failed_steps = 0 then "completed" else "failed" }

/- ============== Plan executor (src/selenium_executor.py) ============== -/

/-- One step dict of a plan.  Absent keys are none; step.get("action") with an
unsupported or missing name falls into the unknown-action branch, which the
model reaches through any action string other than the five known ones. -/
structure Step where
  action : String
  selector : Option String := none
  url : Option String := none
  value : Option String := none
  seconds : Option Nat := none
  screenshot_path : Option String := none
deriving Repr, DecidableEq

/-- A plan dict: plan.get("steps", []) distinguishes an absent key (none)
from an empty list (some []). -/
structure Plan where
  steps : Option (List Step)
deriving Repr, DecidableEq

/-- Outcome the external browser gives one attempted action: whether the
selenium call raised, the error text if it did, and the current URL observed
after a successful call. -/
structure StepOutcome where
  ok : Bool
  err : String
  urlAfter : String
deriving Repr, DecidableEq

/-- Executor-side mutable state: the monitor, the current URL of the driver, and
the abstract wall clock (datetime.now() reads are numbered ticks). -/
structure ExecState where
  monitor : RuntimeMonitor
  url : String
  clock : Nat
deriving Repr, DecidableEq

/-- datetime.now().isoformat(): one clock tick, rendered as a string. -/
def now (c : Nat) : String × Nat := (toString c, c + 1)

/-- SeleniumExecutor._save_screenshot: builds the file path from the name and
the formatted clock value; one clock tick. -/
def _save_screenshot (name : String) (c : Nat) : String × Nat :=
  ("./screenshots/" ++ name ++ "_" ++ toString c ++ ".png", c + 1)

/-- The dispatch block of _execute_step (the try body): checks the required
keys of the action (a missing key raises KeyError), runs the action against
the browser oracle, and for screenshot mutates the step with the saved path.
Returns the updated step, URL and clock, or the raised error message. -/
def dispatchAction (i : Nat) (s : Step) (o : StepOutcome) (url : String) (c : Nat) :
    Except String (Step × String × Nat) :=
  match s.action with
  | "open" =>
    match s.url with
    | none => Except.error "KeyError: url"
    | some _ => if o.ok then Except.ok (s, o.urlAfter, c) else Except.error o.err
  | "type" =>
    match s.selector, s.value with
    | some _, some _ => if o.ok then Except.ok (s, o.urlAfter, c) else Except.error o.err
    | _, _ => Except.error "KeyError: selector or value"
  | "click" =>
    match s.selector with
    | none => Except.error "KeyError: selector"
    | some _ => if o.ok then Except.ok (s, o.urlAfter, c) else Except.error o.err
  | "wait" =>
    match s.seconds with
    | none => Except.error "KeyError: seconds"
    | some _ => Except.ok (s, url, c)
  | "screenshot" =>
    let p := _save_screenshot ("step_" ++ toString i) c
    Except.ok ({ s with screenshot_path := some p.1 }, url, p.2)
  | other => Except.error ("Unknown action: " ++ other)

/-- Whether the dispatched action of a step succeeds, given the browser
outcome.  This is the success criterion of dispatchAction, which does not
depend on the current URL or clock (proved below). -/
def stepOk (s : Step) (o : StepOutcome) : Bool :=
  match s.action with
  | "open" => s.url.isSome && o.ok
  | "type" => s.selector.isSome && s.value.isSome && o.ok
  | "click" => s.selector.isSome && o.ok
  | "wait" => s.seconds.isSome
  | "screenshot" => true
  | _ => false

/-- SeleniumExecutor._execute_step: emit started, dispatch the action, then
emit success, or on an exception save an error screenshot and emit failed. -/
def _execute_step (o : StepOutcome) (st : ExecState) (i : Nat) (s : Step) :
    ExecState × Bool :=
  let t1 := now st.clock
  let m1 := st.monitor.emit
    { step_index := i, action := s.action, status := "started", timestamp := t1.1
      selector := s.selector, url := some st.url, value := s.value }
  match dispatchAction i s o st.url t1.2 with
  | Except.ok (s', url', c') =>
    let t2 := now c'
    let m2 := m1.emit
      { step_index := i, action := s.action, status := "success", timestamp := t2.1
        selector := s.selector, url := some url', screenshot_path := s'.screenshot_path }
    ({ monitor := m2, url := url', clock := t2.2 }, true)
  | Except.error e =>
    let p := _save_screenshot ("error_step_" ++ toString i) t1.2
    let t2 := now p.2
    let m2 := m1.emit
      { step_index := i, action := s.action, status := "failed", timestamp := t2.1
        selector := s.selector, url := some st.url, error := some e
        screenshot_path := some p.1 }
    ({ monitor := m2, url := st.url, clock := t2.2 }, false)

/-- The for-loop body of SeleniumExecutor.execute_plan: run each step in
order; on the first failing step save another error screenshot, emit a second
failed event for that index, and stop with False. -/
def execute_plan_steps (env : Nat → StepOutcome) :
    ExecState → Nat → List Step → ExecState × Bool
  | st, _, [] => (st, true)
  | st, i, s :: rest =>
    let r := _execute_step (env i) st i s
    if r.2 then execute_plan_steps env r.1 (i + 1) rest
    else
      let p := _save_screenshot ("error_step_" ++ toString i) r.1.clock
      let t := now p.2
      let m := r.1.monitor.emit
        { step_index := i, action := s.action, status := "failed", timestamp := t.1
          selector := s.selector, url := some r.1.url
          error := some "Step execution failed", screenshot_path := some p.1 }
      ({ monitor := m, url := r.1.url, clock := t.2 }, false)

/-- SeleniumExecutor.execute_plan: iterate plan.get("steps", []). -/
def execute_plan (env : Nat → StepOutcome) (st : ExecState) (plan : Plan) :
    ExecState × Bool :=
  execute_plan_steps env st 0 (plan.steps.getD [])

/-- Executor state at the start of a run: fresh monitor, the blank start
page of the browser, clock at zero. -/
def initExecState : ExecState :=
  { monitor := initMonitor, url := "data:,", clock := 0 }

/-- The (step_index, status) projection of the monitor log; the claims about
the executor are stated over it. -/
def evTrace (st : ExecState) : List (Nat × String) :=
  st.monitor.events.map (fun e => (e.step_index, e.status))

/- ============== Orchestrator (src/orchestrator.py) ============== -/

/-- AISeleniumOrchestrator._print_summary: reads the status dict of the
monitor and prints total, completed, failed and completed/total.  A missing
key is a KeyError and a zero total a ZeroDivisionError; either propagates. -/
def _print_summary (m : RuntimeMonitor) : Except String Unit :=
  let st := m.get_current_status
  match st.completed with
  | none => Except.error "KeyError: completed"
  | some _ =>
    match st.failed with
    | none => Except.error "KeyError: failed"
    | some _ =>
      if st.total_steps = 0 then Except.error "ZeroDivisionError"
      else Except.ok ()

/-- The recovery lookup: last element of the failed-event sublist. -/
def lastFailed (events : List StepEvent) : Option StepEvent :=
  (events.filter (fun e => e.status == "failed")).getLast?

/-- Python last_failure.error with fallback "Unknown error" (falsy: None or ""). -/
def errorOrUnknown (e : Option String) : String :=
  match e with
  | some s => if s = "" then "Unknown error" else s
  | none => "Unknown error"

/-- The while loop of AISeleniumOrchestrator.execute_task.  fuel is the
number of loop iterations the condition retry_count <= max_retries still
allows, i.e. max_retries + 1 - retry_count; rc is retry_count.  The refine
oracle stands for planner.refine_plan_with_error, indexed by the retry count
at which it is called and given the current plan, the failing step index and
its error message (the DOM snippet is internal to the opaque planner).  The
second component counts the executor invocations. -/
def orchLoop (env : Nat → Nat → StepOutcome)
    (refine : Nat → Plan → Nat → String → Except String Plan)
    (auto_retry : Bool) (max_retries : Nat) :
    Nat → Nat → ExecState → Plan → (Except String Bool × Nat)
  | 0, _, _, _ => (Except.ok false, 0)
  | fuel + 1, rc, st, plan =>
    let r := execute_plan (env rc) st plan
    if r.2 then
      match _print_summary r.1.monitor with
      | Except.error e => (Except.error e, 1)
      | Except.ok _ => (Except.ok true, 1)
    else if auto_retry = false ∨ max_retries ≤ rc then
      match _print_summary r.1.monitor with
      | Except.error e => (Except.error e, 1)
      | Except.ok _ => (Except.ok false, 1)
    else
      match lastFailed r.1.monitor.events with
      | none =>
        let rest := orchLoop env refine auto_retry max_retries fuel (rc + 1) r.1 plan
        (rest.1, rest.2 + 1)
      | some fe =>
        match refine rc plan fe.step_index (errorOrUnknown fe.error) with
        | Except.error _ => (Except.ok false, 1)
        | Except.ok plan2 =>
          let rest := orchLoop env refine auto_retry max_retries fuel (rc + 1) r.1 plan2
          (rest.1, rest.2 + 1)

/-- AISeleniumOrchestrator.execute_task.  planResult stands for the external
planner.get_task_plan call; inside the same try block the code evaluates
len(plan["steps"]), so an absent steps key raises a KeyError that the
planning handler catches, returning False.  The loop then runs with
retry_count 0 and a fresh executor state.  The Nat component counts how many
times the executor was invoked. -/
def execute_task (env : Nat → Nat → StepOutcome)
    (planResult : Except String Plan)
    (refine : Nat → Plan → Nat → String → Except String Plan)
    (auto_retry : Bool) (max_retries : Nat) : (Except String Bool × Nat) :=
  let planning : Except String Plan :=
    match planResult with
    | Except.error e => Except.error e
    | Except.ok p =>
      match p.steps with
      | none => Except.error "KeyError: steps"
      | some _ => Except.ok p
  match planning with
  | Except.error _ => (Except.ok false, 0)
  | Except.ok plan =>
    orchLoop env refine auto_retry max_retries (max_retries + 1) 0 initExecState plan

/- ============== Derived notions used by the statements ============== -/

/-- The trace a run of n all-successful steps appends, starting at index j:
started then success per index, in increasing order. -/
def okPairs (j : Nat) : Nat → List (Nat × String)
  | 0 => []
  | n + 1 => (j, "started") :: (j, "success") :: okPairs (j + 1) n

/-- Count of trace entries with the given status. -/
def cnt2 (s : String) (l : List (Nat × String)) : Nat :=
  (l.filter (fun x => x.2 == s)).length

/-- A plan every execution attempt of which fails, whatever the browser
does and whatever state the executor is in. -/
def AlwaysFails (env : Nat → Nat → StepOutcome) (p : Plan) : Prop :=
  ∀ t st, (execute_plan (env t) st p).2 = false

/- Concrete inputs for witnesses and counterexamples. -/

/-- A browser oracle whose actions all fail. -/
def envAllFail : Nat → Nat → StepOutcome :=
  fun _ _ => { ok := false, err := "boom", urlAfter := "u" }

/-- A browser oracle whose actions all succeed. -/
def envAllOk : Nat → StepOutcome :=
  fun _ => { ok := true, err := "boom", urlAfter := "u" }

/-- A timestamp parser that accepts nothing. -/
def noParse : String → Option Rat := fun _ => none

/-- A step with an action name outside the known five: its dispatch raises
ValueError deterministically. -/
def stepNope : Step := { action := "nope" }

/-- A screenshot step: always succeeds. -/
def stepShot : Step := { action := "screenshot" }

/-- A wait step: always succeeds. -/
def stepWait : Step := { action := "wait", seconds := some 1 }

/-- One-step plan that always fails. -/
def planNope : Plan := { steps := some [stepNope] }

/-- Two-step plan that always succeeds. -/
def planGood : Plan := { steps := some [stepShot, stepWait] }

/-- A refinement oracle that always answers with planNope. -/
def refineNope : Nat → Plan → Nat → String → Except String Plan :=
  fun _ _ _ _ => Except.ok planNope

/-- A refinement oracle that always fails. -/
def refineFail : Nat → Plan → Nat → String → Except String Plan :=
  fun _ _ _ _ => Except.error "refinement failed"

/-- Events used by witnesses. -/
def wEvent : StepEvent :=
  { step_index := 0, action := "open", status := "started", timestamp := "t" }

/- ========================= Theorems ========================= -/

lemma emitListenerLoop_ok (e : StepEvent) :
    ∀ ls : List (StepEvent → Except String Unit),
      emitListenerLoop e ls = Except.ok (ls.map (fun l => l e)) := by
  intro ls
  induction ls with
  | nil => rfl
  | cons l rest ih => simp [emitListenerLoop, ih]

lemma foldl_emit_events :
    ∀ (l : List StepEvent) (m : RuntimeMonitor),
      (l.foldl RuntimeMonitor.emit m).events = m.events ++ l := by
  intro l
  induction l with
  | nil => simp
  | cons e t ih => intro m; simp [List.foldl, RuntimeMonitor.emit, ih]

lemma foldl_emit_current :
    ∀ (l : List StepEvent) (m : RuntimeMonitor),
      (l.foldl RuntimeMonitor.emit m).current_step =
        (match l.getLast? with
         | some e => some e.step_index
         | none => m.current_step) := by
  intro l
  induction l with
  | nil => intro m; rfl
  | cons e t ih =>
    intro m
    cases t with
    | nil => simp [List.foldl, RuntimeMonitor.emit]
    | cons b t2 =>
      show (List.foldl RuntimeMonitor.emit (m.emit e) (b :: t2)).current_step = _
      rw [ih (m.emit e), List.getLast?_cons_cons]
      cases h : (b :: t2).getLast? with
      | some x => rfl
      | none => simp at h

lemma replay_events (l : List StepEvent) : (replay l).events = l := by
  simpa [initMonitor] using foldl_emit_events l initMonitor

lemma replay_current (l : List StepEvent) :
    (replay l).current_step =
      (match l.getLast? with
       | some e => some e.step_index
       | none => none) := by
  simpa [initMonitor] using foldl_emit_current l initMonitor

lemma status_of_replay_last {l : List StepEvent} {e : StepEvent}
    (he : l.getLast? = some e) :
    (replay l).get_current_status =
      { status := "running", total_steps := maxStepIndex l + 1
        completed := some (countStatus "success" l)
        failed := some (countStatus "failed" l)
        current_step := some (some e.step_index) } := by
  have hne : l ≠ [] := by
    intro h
    subst h
    simp at he
  have hcur := replay_current l
  rw [he] at hcur
  simp [RuntimeMonitor.get_current_status, replay_events, hcur,
    List.isEmpty_iff, hne]

/-- C6: for every monitor state, event, and list of registered observers,
some of which raise, emit still appends the event to the log, still invokes
every observer in registration order (the result list has one entry per
listener, in order), and never propagates an observer exception (the result
is always ok). -/
theorem emit_isolates_observer_failures (m : RuntimeMonitor)
    (listeners : List (StepEvent → Except String Unit)) (e : StepEvent) :
    m.emitFull listeners e =
      Except.ok ({ events := m.events ++ [e], current_step := some e.step_index },
        listeners.map (fun l => l e)) := by
  simp [RuntimeMonitor.emitFull, RuntimeMonitor.emit, emitListenerLoop_ok]

/-- C7: on a monitor state reached by emitting the events of the log,
status() returns not_started with total_steps 0 when the log is empty, and
otherwise total_steps = max(stepIndex) + 1, completed = count of success
events, failed = count of failed events, and current_step = the step index of
the most recently emitted event. -/
theorem get_current_status_spec (l : List StepEvent) :
    (l = [] → (replay l).get_current_status = { status := "not_started", total_steps := 0 }) ∧
    (∀ e, l.getLast? = some e →
      (replay l).get_current_status =
        { status := "running", total_steps := maxStepIndex l + 1
          completed := some (countStatus "success" l)
          failed := some (countStatus "failed" l)
          current_step := some (some e.step_index) }) := by
  constructor
  · rintro rfl
    rfl
  · intro e he
    exact status_of_replay_last he

/-- Witness for C7 at the empty log and a one-event log. -/
theorem get_current_status_spec_witness :
    (replay ([] : List StepEvent)).get_current_status =
        { status := "not_started", total_steps := 0 } ∧
    (replay [wEvent]).get_current_status =
        { status := "running", total_steps := 1, completed := some 0
          failed := some 0, current_step := some (some 0) } := by
  constructor
  · exact (get_current_status_spec []).1 rfl
  · exact ((get_current_status_spec [wEvent]).2 wEvent (by rfl)).trans (by decide)

/-- C10: current_step, once set by an emit, is never none again, so a
reachable monitor state with a non-empty log reports status running and the
stopped value is unreachable. -/
theorem monitor_never_stopped (l : List StepEvent) :
    ((replay l).get_current_status.status = "stopped" → False) ∧
    (l ≠ [] → (replay l).get_current_status.status = "running") ∧
    (∀ (m : RuntimeMonitor) (e : StepEvent), (m.emit e).current_step = some e.step_index) := by
  have hrun : l ≠ [] → (replay l).get_current_status.status = "running" := by
    intro hne
    obtain ⟨e, he⟩ := Option.isSome_iff_exists.mp (List.getLast?_isSome.mpr hne)
    rw [status_of_replay_last he]
  refine ⟨?_, hrun, fun m e => rfl⟩
  intro hstop
  by_cases hl : l = []
  · subst hl
    exact absurd hstop (by decide)
  · rw [hrun hl] at hstop
    exact absurd hstop (by decide)

/-- Witness for C10 at a one-event log. -/
theorem monitor_never_stopped_witness :
    [wEvent] ≠ ([] : List StepEvent) ∧
    (replay [wEvent]).get_current_status.status = "running" :=
  ⟨by decide, (monitor_never_stopped [wEvent]).2.1 (by decide)⟩

lemma dispatchAction_ok {s : Step} {o : StepOutcome} (i : Nat) (u : String) (c : Nat)
    (h : stepOk s o = true) : ∃ t, dispatchAction i s o u c = Except.ok t := by
  unfold stepOk at h
  unfold dispatchAction
  split at h <;> simp_all <;>
    cases hs : s.url <;> cases hsel : s.selector <;>
    cases hv : s.value <;> cases hsec : s.seconds <;> simp_all

lemma dispatchAction_err {s : Step} {o : StepOutcome} (i : Nat) (u : String) (c : Nat)
    (h : stepOk s o = false) : ∃ e, dispatchAction i s o u c = Except.error e := by
  unfold stepOk at h
  unfold dispatchAction
  split at h <;> simp_all <;>
    cases hs : s.url <;> cases hsel : s.selector <;>
    cases hv : s.value <;> cases hsec : s.seconds <;> simp_all

lemma _execute_step_ok {o : StepOutcome} {s : Step} (st : ExecState) (i : Nat)
    (h : stepOk s o = true) :
    (_execute_step o st i s).2 = true ∧
    evTrace (_execute_step o st i s).1 = evTrace st ++ [(i, "started"), (i, "success")] := by
  obtain ⟨⟨s2, u2, c2⟩, hd⟩ := dispatchAction_ok i st.url (now st.clock).2 h
  unfold _execute_step
  simp [hd, evTrace, RuntimeMonitor.emit]

lemma _execute_step_fail {o : StepOutcome} {s : Step} (st : ExecState) (i : Nat)
    (h : stepOk s o = false) :
    (_execute_step o st i s).2 = false ∧
    evTrace (_execute_step o st i s).1 = evTrace st ++ [(i, "started"), (i, "failed")] := by
  obtain ⟨e, hd⟩ := dispatchAction_err i st.url (now st.clock).2 h
  unfold _execute_step
  simp [hd, evTrace, RuntimeMonitor.emit]

lemma cnt2_nil (s : String) : cnt2 s [] = 0 := rfl

lemma cnt2_cons (s : String) (x : Nat × String) (l : List (Nat × String)) :
    cnt2 s (x :: l) = (if x.2 == s then 1 else 0) + cnt2 s l := by
  by_cases hx : x.2 == s <;> simp [cnt2, List.filter_cons, hx, Nat.add_comm]

lemma cnt2_append (s : String) (l1 l2 : List (Nat × String)) :
    cnt2 s (l1 ++ l2) = cnt2 s l1 + cnt2 s l2 := by
  simp [cnt2, List.filter_append]

lemma cnt2_map (s : String) (l : List StepEvent) :
    cnt2 s (l.map (fun e => (e.step_index, e.status))) = countStatus s l := by
  induction l with
  | nil => rfl
  | cons e t ih =>
    by_cases he : e.status == s <;> simp [cnt2, countStatus, List.filter_cons, he] <;>
      simpa [cnt2, countStatus] using ih

lemma countStatus_eq_cnt2 (s : String) (st : ExecState) :
    countStatus s st.monitor.events = cnt2 s (evTrace st) :=
  (cnt2_map s st.monitor.events).symm

lemma steps_all_ok (env : Nat → StepOutcome) :
    ∀ (steps : List Step) (j : Nat) (st : ExecState),
      (∀ i (hi : i < steps.length), stepOk (steps.get ⟨i, hi⟩) (env (j + i)) = true) →
      (execute_plan_steps env st j steps).2 = true ∧
      evTrace (execute_plan_steps env st j steps).1 = evTrace st ++ okPairs j steps.length := by
  intro steps
  induction steps with
  | nil => intro j st _; simp [execute_plan_steps, okPairs]
  | cons s rest ih =>
    intro j st H
    have h0 : stepOk s (env j) = true := by simpa using H 0 (by simp)
    obtain ⟨hb, ht⟩ := _execute_step_ok st j h0
    have Hrest : ∀ i (hi : i < rest.length),
        stepOk (rest.get ⟨i, hi⟩) (env (j + 1 + i)) = true := by
      intro i hi
      have h2 := H (i + 1) (by simpa using Nat.succ_lt_succ hi)
      rw [show j + (i + 1) = j + 1 + i by omega] at h2
      simpa using h2
    have IH := ih (j + 1) (_execute_step (env j) st j s).1 Hrest
    simp only [execute_plan_steps, hb, if_true]
    exact ⟨IH.1, by rw [IH.2, ht]; simp [okPairs]⟩

lemma steps_fail_at (env : Nat → StepOutcome) :
    ∀ (steps : List Step) (k j : Nat) (st : ExecState) (hk : k < steps.length),
      (∀ i (hi : i < steps.length), i < k → stepOk (steps.get ⟨i, hi⟩) (env (j + i)) = true) →
      stepOk (steps.get ⟨k, hk⟩) (env (j + k)) = false →
      (execute_plan_steps env st j steps).2 = false ∧
      evTrace (execute_plan_steps env st j steps).1 =
        evTrace st ++ okPairs j k ++
          [(j + k, "started"), (j + k, "failed"), (j + k, "failed")] := by
  intro steps
  induction steps with
  | nil => intro k j st hk; exact absurd hk (by simp)
  | cons s rest ih =>
    intro k j st hk H1 H2
    cases k with
    | zero =>
      have h0 : stepOk s (env j) = false := by simpa using H2
      obtain ⟨hb, ht⟩ := _execute_step_fail st j h0
      simp only [execute_plan_steps, hb, if_false, Bool.false_eq_true]
      constructor
      · trivial
      · simp [evTrace, RuntimeMonitor.emit, okPairs] at ht ⊢
        simp [ht]
    | succ k2 =>
      have h0 : stepOk s (env j) = true := by
        simpa using H1 0 (by simp) (Nat.succ_pos k2)
      obtain ⟨hb, ht⟩ := _execute_step_ok st j h0
      have H1rest : ∀ i (hi : i < rest.length), i < k2 →
          stepOk (rest.get ⟨i, hi⟩) (env (j + 1 + i)) = true := by
        intro i hi hik
        have h2 := H1 (i + 1) (by simpa using Nat.succ_lt_succ hi) (Nat.succ_lt_succ hik)
        rw [show j + (i + 1) = j + 1 + i by omega] at h2
        simpa using h2
      have hk2 : k2 < rest.length := by simpa using Nat.lt_of_succ_lt_succ hk
      have H2rest : stepOk (rest.get ⟨k2, hk2⟩) (env (j + 1 + k2)) = false := by
        rw [show j + 1 + k2 = j + (k2 + 1) by omega]
        simpa using H2
      have IH := ih k2 (j + 1) (_execute_step (env j) st j s).1 hk2 H1rest H2rest
      simp only [execute_plan_steps, hb, if_true]
      refine ⟨IH.1, ?_⟩
      rw [IH.2, ht]
      simp [okPairs, show j + 1 + k2 = j + (k2 + 1) by omega]

lemma steps_counts (env : Nat → StepOutcome) :
    ∀ (steps : List Step) (j : Nat) (st : ExecState),
      ∃ added, evTrace (execute_plan_steps env st j steps).1 = evTrace st ++ added ∧
        cnt2 "success" added + cnt2 "failed" added ≤ cnt2 "started" added + 1 ∧
        ((execute_plan_steps env st j steps).2 = true →
          cnt2 "success" added + cnt2 "failed" added ≤ cnt2 "started" added) ∧
        ((execute_plan_steps env st j steps).2 = false → 1 ≤ cnt2 "failed" added) := by
  intro steps
  induction steps with
  | nil =>
    intro j st
    exact ⟨[], by simp [execute_plan_steps], by simp [cnt2_nil], by simp [cnt2_nil],
      by simp [execute_plan_steps]⟩
  | cons s rest ih =>
    intro j st
    cases hOk : stepOk s (env j) with
    | true =>
      obtain ⟨hb, ht⟩ := _execute_step_ok st j hOk
      obtain ⟨added, hadded, hle, htrue, hfalse⟩ := ih (j + 1) (_execute_step (env j) st j s).1
      refine ⟨[(j, "started"), (j, "success")] ++ added, ?_, ?_, ?_, ?_⟩ <;>
        try simp only [execute_plan_steps, hb, if_true]
      · rw [hadded, ht]; simp
      · simp [cnt2_append, cnt2_cons, cnt2_nil]; omega
      · intro h
        have := htrue h
        simp [cnt2_append, cnt2_cons, cnt2_nil]
        omega
      · intro h
        have := hfalse h
        simp [cnt2_append, cnt2_cons, cnt2_nil]
        omega
    | false =>
      obtain ⟨hb, ht⟩ := _execute_step_fail st j hOk
      refine ⟨[(j, "started"), (j, "failed"), (j, "failed")], ?_, ?_, ?_, ?_⟩ <;>
        try simp only [execute_plan_steps, hb, if_false, Bool.false_eq_true]
      · simp [evTrace, RuntimeMonitor.emit] at ht ⊢
        simp [ht]
      · simp [cnt2_cons, cnt2_nil]
      · intro h
        simp at h
      · intro h
        simp [cnt2_cons, cnt2_nil]

lemma execute_plan_false_failed (env : Nat → StepOutcome) (st : ExecState) (plan : Plan)
    (h : (execute_plan env st plan).2 = false) :
    1 ≤ countStatus "failed" (execute_plan env st plan).1.monitor.events := by
  obtain ⟨added, hadded, _, _, hfalse⟩ := steps_counts env (plan.steps.getD []) 0 st
  unfold execute_plan at h ⊢
  have h1 := hfalse h
  rw [countStatus_eq_cnt2, hadded, cnt2_append]
  omega

lemma countStatus_pos_ne_nil {s : String} {l : List StepEvent}
    (h : 1 ≤ countStatus s l) : l ≠ [] := by
  rintro rfl
  simp [countStatus] at h

lemma _print_summary_ok {m : RuntimeMonitor} (h : m.events ≠ []) :
    _print_summary m = Except.ok () := by
  unfold _print_summary RuntimeMonitor.get_current_status
  simp [List.isEmpty_iff, h]

lemma lastFailed_isSome {l : List StepEvent} (h : 1 ≤ countStatus "failed" l) :
    ∃ fe, lastFailed l = some fe := by
  unfold lastFailed
  have hne : l.filter (fun e => e.status == "failed") ≠ [] := by
    intro h2
    unfold countStatus at h
    rw [h2] at h
    simp at h
  exact Option.isSome_iff_exists.mp (List.getLast?_isSome.mpr hne)

lemma orchLoop_all_fail (env : Nat → Nat → StepOutcome)
    (refine : Nat → Plan → Nat → String → Except String Plan)
    (auto : Bool) (R : Nat)
    (href : ∀ rc p i e p2, refine rc p i e = Except.ok p2 → AlwaysFails env p2) :
    ∀ (fuel rc : Nat) (st : ExecState) (p : Plan), AlwaysFails env p →
      ∃ n, orchLoop env refine auto R fuel rc st p = (Except.ok false, n) ∧ n ≤ fuel := by
  intro fuel
  induction fuel with
  | zero => intro rc st p _; exact ⟨0, rfl, Nat.le_refl 0⟩
  | succ fuel ih =>
    intro rc st p hAF
    have hfail := hAF rc st
    have hcnt := execute_plan_false_failed (env rc) st p hfail
    have hne : (execute_plan (env rc) st p).1.monitor.events ≠ [] :=
      countStatus_pos_ne_nil hcnt
    have hps := _print_summary_ok hne
    simp only [orchLoop, hfail, Bool.false_eq_true, if_false]
    by_cases hterm : auto = false ∨ R ≤ rc
    · rw [if_pos hterm, hps]
      exact ⟨1, rfl, by omega⟩
    · rw [if_neg hterm]
      obtain ⟨fe, hfe⟩ := lastFailed_isSome hcnt
      simp only [hfe]
      cases hr : refine rc p fe.step_index (errorOrUnknown fe.error) with
      | error e2 => exact ⟨1, by simp, by omega⟩
      | ok p2 =>
        obtain ⟨n, hn, hle⟩ := ih (rc + 1) (execute_plan (env rc) st p).1 p2
          (href rc p fe.step_index (errorOrUnknown fe.error) p2 hr)
        refine ⟨n + 1, ?_, by omega⟩
        simp [hn]

/-- C3: with max_retries R and every execution attempt failing (the given
plan, and any plan the refinement oracle can return, fails on every state and
attempt), execute_task invokes the executor at most R + 1 times and returns
false; the loop is total by construction, so it terminates. -/
theorem execute_task_retry_bound (env : Nat → Nat → StepOutcome)
    (refine : Nat → Plan → Nat → String → Except String Plan)
    (auto : Bool) (R : Nat) (plan : Plan)
    (hAF : AlwaysFails env plan)
    (href : ∀ rc p i e p2, refine rc p i e = Except.ok p2 → AlwaysFails env p2) :
    ∃ n, execute_task env (Except.ok plan) refine auto R = (Except.ok false, n) ∧ n ≤ R + 1 := by
  cases hs : plan.steps with
  | none => exact ⟨0, by simp [execute_task, hs], by omega⟩
  | some l =>
    obtain ⟨n, hn, hle⟩ :=
      orchLoop_all_fail env refine auto R href (R + 1) 0 initExecState plan hAF
    exact ⟨n, by simp [execute_task, hs, hn], hle⟩

/-- Witness for C3: a one-step plan with an unknown action fails on every
attempt; with max_retries 2 the orchestrator returns false after at most 3
executor invocations. -/
theorem execute_task_retry_bound_witness :
    ∃ n, execute_task envAllFail (Except.ok planNope) refineNope true 2 =
      (Except.ok false, n) ∧ n ≤ 3 := by
  apply execute_task_retry_bound
  · intro t st
    rfl
  · intro rc p i e p2 h
    have hp2 : p2 = planNope := by
      simpa [refineNope] using h.symm
    subst hp2
    intro t st
    rfl

/-- C8: a failing planning call makes execute_task return false with no
executor invocation; and a failing refinement call during recovery, at any
retry stage, makes the run return false after the single execution attempt
already performed in that stage, with no further attempt. -/
theorem planning_and_refinement_failures_terminal (env : Nat → Nat → StepOutcome)
    (refine : Nat → Plan → Nat → String → Except String Plan)
    (auto : Bool) (R : Nat) (msg : String) (plan : Plan) (e : String) :
    (execute_task env (Except.error msg) refine auto R = (Except.ok false, 0)) ∧
    (∀ fuel rc st p, rc < R →
      (execute_plan (env rc) st p).2 = false →
      (∀ i er, refine rc p i er = Except.error e) →
      orchLoop env refine true R (fuel + 1) rc st p = (Except.ok false, 1)) ∧
    (0 < R →
      (execute_plan (env 0) initExecState plan).2 = false →
      (∀ i er, refine 0 plan i er = Except.error e) →
      execute_task env (Except.ok plan) refine true R = (Except.ok false, 1)) := by
  have key : ∀ fuel rc st p, rc < R →
      (execute_plan (env rc) st p).2 = false →
      (∀ i er, refine rc p i er = Except.error e) →
      orchLoop env refine true R (fuel + 1) rc st p = (Except.ok false, 1) := by
    intro fuel rc st p hrc hfail href
    have hcnt := execute_plan_false_failed (env rc) st p hfail
    obtain ⟨fe, hfe⟩ := lastFailed_isSome hcnt
    simp only [orchLoop, hfail, Bool.false_eq_true, if_false]
    rw [if_neg ?hcond]
    case hcond =>
      intro hdisj
      rcases hdisj with h1 | h2
      · exact absurd h1 (by decide)
      · omega
    simp only [hfe]
    rw [href fe.step_index (errorOrUnknown fe.error)]
  refine ⟨rfl, key, ?_⟩
  intro hR hfail href
  cases plan with
  | mk steps =>
    cases steps with
    | none => simp [execute_plan, execute_plan_steps] at hfail
    | some l =>
      have h2 := key R 0 initExecState ⟨some l⟩ hR hfail href
      simpa [execute_task] using h2

/-- Witness for C8: a failing planner and, separately, a one-step failing
plan with a refinement oracle that always fails. -/
theorem planning_and_refinement_failures_terminal_witness :
    (execute_task envAllFail (Except.error "no plan") refineFail true 2 =
      (Except.ok false, 0)) ∧
    execute_task envAllFail (Except.ok planNope) refineFail true 2 =
      (Except.ok false, 1) := by
  have h := planning_and_refinement_failures_terminal envAllFail refineFail true 2
    "no plan" planNope "refinement failed"
  exact ⟨h.1, h.2.2 (by omega) (by rfl) (fun i er => rfl)⟩

/-- C2: a plan of N steps whose dispatched actions all succeed makes
execute_plan return true and append exactly N started and N success events,
interleaved as started(i), success(i) for i = 0..N-1 in increasing order. -/
theorem execute_plan_all_success (env : Nat → StepOutcome) (st : ExecState)
    (steps : List Step)
    (H : ∀ i (hi : i < steps.length), stepOk (steps.get ⟨i, hi⟩) (env i) = true) :
    (execute_plan env st { steps := some steps }).2 = true ∧
    evTrace (execute_plan env st { steps := some steps }).1 =
      evTrace st ++ okPairs 0 steps.length := by
  have h := steps_all_ok env steps 0 st (by intro i hi; simpa using H i hi)
  simpa [execute_plan] using h

/-- Witness for C2 on a two-step always-succeeding plan. -/
theorem execute_plan_all_success_witness :
    (execute_plan envAllOk initExecState planGood).2 = true ∧
    evTrace (execute_plan envAllOk initExecState planGood).1 = okPairs 0 2 := by
  have h := execute_plan_all_success envAllOk initExecState [stepShot, stepWait]
    (by decide)
  simpa [planGood, initExecState, initMonitor, evTrace] using h

/-- Counterexample to C1 as stated: on the one-step plan whose action is
unknown, execute_plan returns false but the log holds two failed events at
index 0, not exactly one (both _execute_step and execute_plan emit one). -/
theorem execute_plan_single_failure_counterexample :
    (execute_plan envAllOk initExecState planNope).2 = false ∧
    countStatus "failed"
      (execute_plan envAllOk initExecState planNope).1.monitor.events ≠ 1 := by
  decide

/-- C1 (amended): when steps 0..k-1 succeed and step k fails, execute_plan
returns false and the log gains exactly k started/success pairs, then one
started event and two failed events at index k (one emitted by
_execute_step, a second by execute_plan), and no events for any index
greater than k. -/
theorem execute_plan_first_failure (env : Nat → StepOutcome) (st : ExecState)
    (steps : List Step) (k : Nat) (hk : k < steps.length)
    (H1 : ∀ i (hi : i < steps.length), i < k → stepOk (steps.get ⟨i, hi⟩) (env i) = true)
    (H2 : stepOk (steps.get ⟨k, hk⟩) (env k) = false) :
    (execute_plan env st { steps := some steps }).2 = false ∧
    evTrace (execute_plan env st { steps := some steps }).1 =
      evTrace st ++ okPairs 0 k ++ [(k, "started"), (k, "failed"), (k, "failed")] := by
  have h := steps_fail_at env steps k 0 st hk
    (by intro i hi hik; simpa using H1 i hi hik) (by simpa using H2)
  simpa [execute_plan] using h

/-- Witness for C1 (amended): screenshot step succeeds, then an unknown
action fails at index 1. -/
theorem execute_plan_first_failure_witness :
    (execute_plan envAllOk initExecState { steps := some [stepShot, stepNope] }).2 = false ∧
    evTrace (execute_plan envAllOk initExecState { steps := some [stepShot, stepNope] }).1 =
      okPairs 0 1 ++ [(1, "started"), (1, "failed"), (1, "failed")] := by
  have h := execute_plan_first_failure envAllOk initExecState [stepShot, stepNope] 1
    (by decide) (by decide) (by decide)
  simpa [initExecState, initMonitor, evTrace] using h

/-- Counterexample to C4 as stated: on the log of a one-step failing run,
the summary has successful_steps 0, failed_steps 2 and total_steps 1, so
successful_steps + failed_steps exceeds total_steps. -/
theorem summary_inequality_counterexample :
    ¬ ((generate_summary noParse "now"
          (execute_plan envAllOk initExecState planNope).1.monitor.events).successful_steps +
       (generate_summary noParse "now"
          (execute_plan envAllOk initExecState planNope).1.monitor.events).failed_steps ≤
       (generate_summary noParse "now"
          (execute_plan envAllOk initExecState planNope).1.monitor.events).total_steps) := by
  decide

/-- C4 (amended): for every event log the success rate is 0 whenever
total_steps is 0; and for a log produced by a single execute_plan run from a
fresh state, successful_steps + failed_steps ≤ total_steps + 1 (the surplus
of one comes from the duplicated failed event of a failing run). -/
theorem summary_counts_spec (parseTime : String → Option Rat) (nowS : String)
    (events : List StepEvent) (env : Nat → StepOutcome) (plan : Plan) :
    ((generate_summary parseTime nowS events).total_steps = 0 →
      (generate_summary parseTime nowS events).success_rate = 0) ∧
    ((generate_summary parseTime nowS
        (execute_plan env initExecState plan).1.monitor.events).successful_steps +
     (generate_summary parseTime nowS
        (execute_plan env initExecState plan).1.monitor.events).failed_steps ≤
     (generate_summary parseTime nowS
        (execute_plan env initExecState plan).1.monitor.events).total_steps + 1) := by
  constructor
  · intro h
    have h2 : countStatus "started" events = 0 := h
    show roundTo2 (if 0 < countStatus "started" events then
      ((countStatus "success" events : Nat) : Rat) /
        ((countStatus "started" events : Nat) : Rat) * 100 else 0) = 0
    rw [h2]
    norm_num [roundTo2]
  · obtain ⟨added, hadded, hle, _, _⟩ :=
      steps_counts env (plan.steps.getD []) 0 initExecState
    show countStatus "success" (execute_plan env initExecState plan).1.monitor.events +
      countStatus "failed" (execute_plan env initExecState plan).1.monitor.events ≤
      countStatus "started" (execute_plan env initExecState plan).1.monitor.events + 1
    rw [countStatus_eq_cnt2, countStatus_eq_cnt2, countStatus_eq_cnt2]
    unfold execute_plan
    rw [hadded]
    have hinit : evTrace initExecState = [] := rfl
    rw [hinit]
    simpa [cnt2_append] using hle

/-- Witness for C4 at the empty log and a concrete failing run. -/
theorem summary_counts_spec_witness :
    (generate_summary noParse "now" []).success_rate = 0 ∧
    ((generate_summary noParse "now"
        (execute_plan envAllOk initExecState planNope).1.monitor.events).successful_steps +
     (generate_summary noParse "now"
        (execute_plan envAllOk initExecState planNope).1.monitor.events).failed_steps ≤
     (generate_summary noParse "now"
        (execute_plan envAllOk initExecState planNope).1.monitor.events).total_steps + 1) :=
  ⟨(summary_counts_spec noParse "now" [] envAllOk planNope).1 (by decide),
   (summary_counts_spec noParse "now" [] envAllOk planNope).2⟩

/-- Counterexample to C5 as stated: on the empty log the execution ID falls
back to the wall clock read at call time, so two calls of generate_summary
with different clock readings yield different Summary values. -/
theorem generate_summary_empty_log_counterexample :
    generate_summary noParse "20250101000000" [] ≠
      generate_summary noParse "20250101000001" [] := by
  decide

/-- C5 (amended): on every log snapshot whose first event carries a
non-empty timestamp, two calls of generate_summary yield identical Summary
values whatever the wall clock reads, and the execution ID is the
deterministic function of the first event timestamp; only the empty log
(or an empty first timestamp) falls back to the wall clock. -/
theorem generate_summary_deterministic (parseTime : String → Option Rat)
    (n1 n2 : String) (events : List StepEvent) (e : StepEvent)
    (h1 : events.head? = some e) (h2 : e.timestamp ≠ "") :
    generate_summary parseTime n1 events = generate_summary parseTime n2 events ∧
    (generate_summary parseTime n1 events).execution_id =
      "exec_" ++ (stripTimestamp e.timestamp).take 15 := by
  have hstart : reporterStartTime events = some e.timestamp := by
    simp [reporterStartTime, h1]
  constructor <;> simp [generate_summary, _generate_execution_id, hstart, h2]

/-- Witness for C5 on a one-event log with two distinct clock readings. -/
theorem generate_summary_deterministic_witness :
    generate_summary noParse "20250101000000" [wEvent] =
      generate_summary noParse "20250101000001" [wEvent] ∧
    (generate_summary noParse "20250101000000" [wEvent]).execution_id =
      "exec_" ++ (stripTimestamp "t").take 15 := by
  have h := generate_summary_deterministic noParse "20250101000000" "20250101000001"
    [wEvent] wEvent (by rfl) (by decide)
  exact ⟨h.1, h.2⟩

/-- C9 (amended): a plan whose steps entry is absent or the empty list makes
execute_plan return true with no events emitted; but the overall run is not
reported as Succeeded: with steps absent, execute_task returns false already
in planning (the KeyError from plan["steps"] is caught there), and with
steps an empty list, execute_task propagates a KeyError raised by the
summary printout, because the status dict of an empty log has no completed
key. -/
theorem empty_plan_runs (env : Nat → StepOutcome) (st : ExecState)
    (env2 : Nat → Nat → StepOutcome)
    (refine : Nat → Plan → Nat → String → Except String Plan)
    (auto : Bool) (R : Nat) :
    execute_plan env st { steps := none } = (st, true) ∧
    execute_plan env st { steps := some [] } = (st, true) ∧
    execute_task env2 (Except.ok { steps := none }) refine auto R = (Except.ok false, 0) ∧
    execute_task env2 (Except.ok { steps := some [] }) refine auto R =
      (Except.error "KeyError: completed", 1) := by
  refine ⟨rfl, rfl, rfl, ?_⟩
  simp [execute_task, orchLoop, execute_plan, execute_plan_steps, _print_summary,
    RuntimeMonitor.get_current_status, initExecState, initMonitor]

/-- Counterexample to the Succeeded part of C9: with an empty steps list the
run does not end with an ok true result. -/
theorem empty_plan_not_succeeded_counterexample :
    (execute_task envAllFail (Except.ok { steps := some [] }) refineNope true 2).1 ≠
      Except.ok true := by
  intro h
  have hv : (execute_task envAllFail (Except.ok { steps := some [] }) refineNope true 2).1 =
      Except.error "KeyError: completed" := by
    simp [execute_task, orchLoop, execute_plan, execute_plan_steps, _print_summary,
      RuntimeMonitor.get_current_status, initExecState, initMonitor]
  rw [hv] at h
  exact Except.noConfusion h
